import Mathlib

/-!
Verification of `dbml_builder/build.py` (jimbrig/dbml-builder).

The module orchestrates two external libraries (PyDBML, O! My Models) to
generate three artifacts in an output directory — `schema.py`, `orm.py`,
`info.json` — and offers `verify(version, generated_dir)` to decide whether a
previously generated artifact set is still in sync with the schema source.

Shallow embedding conventions:
* The filesystem state relevant to the program is the output directory: a
  `dirExists` flag and the three optional files.  `schema.py` and `orm.py`
  contents are byte lists (the program reads them back in binary mode);
  `info.json` content is an `InfoData`, which is either a JSON object whose
  fields are string-valued (what `json.load` would produce for the files this
  program writes) or `malformed` (content `json.load` rejects).
* External collaborators — PyDBML parsing, `omymodels.create_models`, the
  patch functions from `dbml_builder.fix` (a repository module not present
  under `src/`, treated per the spec as opaque string transforms), and the
  success of each file write — are oracle fields of an `Env` record; each
  fallible call is an `Except`.
* `hashlib.sha1(...).hexdigest()` is an abstract digest parameter
  `sha1hex : List Nat → String`; `str.encode()` is real UTF-8 encoding.
* Errors are the `Err` inductive, standing for Python exceptions
  (`FileNotFoundError`, `KeyError`, `json.JSONDecodeError`, ...).
* `sys.stdout` is a `StdoutS` component of the process state: `visible`
  (the original stream) or `nullDevice` (redirected to `os.devnull`).
-/

/-- Python exceptions that the embedded code can raise or propagate. -/
inductive Err where
  | fileNotFound
  | keyError
  | jsonDecodeError
  | parseError
  | attributeError
  | genError
  | ioError
deriving DecidableEq, Repr

instance {ε α : Type} [DecidableEq ε] [DecidableEq α] :
    DecidableEq (Except ε α)
  | .error a, .error b =>
    if h : a = b then .isTrue (congrArg Except.error h)
    else .isFalse (fun hc => h (Except.error.inj hc))
  | .error _, .ok _ => .isFalse (fun hc => Except.noConfusion hc)
  | .ok _, .error _ => .isFalse (fun hc => Except.noConfusion hc)
  | .ok a, .ok b =>
    if h : a = b then .isTrue (congrArg Except.ok h)
    else .isFalse (fun hc => h (Except.ok.inj hc))

/-- Content of `info.json` as seen by `json.load`: either a JSON object with
string-valued fields (the shape this program ever writes), or content that
`json.load` rejects. -/
inductive InfoData where
  | malformed
  | obj (fields : List (String × String))
deriving DecidableEq, Repr

/-- The output directory's slice of the filesystem: the directory-existence
flag and the three files `verify`/`generate_models` touch.  `none` means the
file does not exist. -/
structure FS where
  dirExists : Bool
  info : Option InfoData
  schema : Option (List Nat)
  orm : Option (List Nat)
deriving DecidableEq, Repr

/-- `os.path.exists` on `info.json` (a pure read: state returned unchanged). -/
def fsExistsInfo (fs : FS) : Bool × FS := (fs.info.isSome, fs)

/-- `os.path.exists` on `schema.py` (a pure read). -/
def fsExistsSchema (fs : FS) : Bool × FS := (fs.schema.isSome, fs)

/-- `open(schema_path, 'rb').read()`: the bytes, or `FileNotFoundError`. -/
def fsReadSchema (fs : FS) : Except Err (List Nat) × FS :=
  match fs.schema with
  | none => (.error .fileNotFound, fs)
  | some b => (.ok b, fs)

/-- `open(orm_path, 'rb').read()`: the bytes, or `FileNotFoundError`. -/
def fsReadOrm (fs : FS) : Except Err (List Nat) × FS :=
  match fs.orm with
  | none => (.error .fileNotFound, fs)
  | some b => (.ok b, fs)

/-- `open(info_path, 'r').read()`: the content, or `FileNotFoundError`. -/
def fsReadInfo (fs : FS) : Except Err InfoData × FS :=
  match fs.info with
  | none => (.error .fileNotFound, fs)
  | some d => (.ok d, fs)

/-- `json.load` on the metadata file content. -/
def jsonLoad (d : InfoData) : Except Err (List (String × String)) :=
  match d with
  | .malformed => .error .jsonDecodeError
  | .obj fields => .ok fields

/-- Python's left-to-right short-circuit evaluation of
`info['version'] == version and info['schema_hash'] == schema_hash and
info['orm_hash'] == orm_hash`: a dict access of a missing key raises
`KeyError`, but only when evaluation actually reaches it. -/
def pyCheck (fields : List (String × String))
    (version schemaHash ormHash : String) : Except Err Bool :=
  match fields.lookup "version" with
  | none => .error .keyError
  | some v =>
    if v = version then
      match fields.lookup "schema_hash" with
      | none => .error .keyError
      | some sh =>
        if sh = schemaHash then
          match fields.lookup "orm_hash" with
          | none => .error .keyError
          | some oh => .ok (oh = ormHash)
        else .ok false
    else .ok false

/-- `verify(version, generated_dir)` from `build.py`, threading the filesystem
state through every file operation it performs, in program order: the two
existence checks, then (inside the `if`) read and hash `orm.py`, read and hash
`schema.py`, `json.load` the metadata, and evaluate the three-way comparison;
in the `else` branch return `False`. -/
def verifyRun (sha1hex : List Nat → String) (version : String) (fs : FS) :
    Except Err Bool × FS :=
  let (e1, fs) := fsExistsInfo fs
  let (e2, fs) := fsExistsSchema fs
  if e1 && e2 then
    match fsReadOrm fs with
    | (.error e, fs) => (.error e, fs)
    | (.ok ormBytes, fs) =>
      let ormHash := sha1hex ormBytes
      match fsReadSchema fs with
      | (.error e, fs) => (.error e, fs)
      | (.ok schemaBytes, fs) =>
        let schemaHash := sha1hex schemaBytes
        match fsReadInfo fs with
        | (.error e, fs) => (.error e, fs)
        | (.ok d, fs) =>
          match jsonLoad d with
          | .error e => (.error e, fs)
          | .ok fields => (pyCheck fields version schemaHash ormHash, fs)
  else (.ok false, fs)

/-- A concrete stand-in digest used to instantiate the abstract `sha1hex`
parameter in closed instances: it distinguishes any two distinct byte lists. -/
def demoHash (b : List Nat) : String := toString b

/-- UTF-8 encoding of one Unicode code point, as byte values. -/
def utf8Bytes (c : Nat) : List Nat :=
  if c ≤ 0x7f then [c]
  else if c ≤ 0x7ff then [0xc0 + c / 64, 0x80 + c % 64]
  else if c ≤ 0xffff then
    [0xe0 + c / 4096, 0x80 + c / 64 % 64, 0x80 + c % 64]
  else
    [0xf0 + c / 262144, 0x80 + c / 4096 % 64, 0x80 + c / 64 % 64,
     0x80 + c % 64]

/-- `str.encode()`: UTF-8 encoding of a Python string, as the byte list that
a text-mode `write` puts on disk and a later binary-mode `read` returns. -/
def pyEncode (s : String) : List Nat :=
  s.data.flatMap (fun ch => utf8Bytes ch.toNat)

/-- The process-wide `sys.stdout` binding: the original stream, or a handle on
`os.devnull`. -/
inductive StdoutS where
  | visible
  | nullDevice
deriving DecidableEq, Repr

/-- Process state seen by `generate_models`: the output directory's filesystem
slice plus the `sys.stdout` binding. -/
structure PState where
  fs : FS
  stdout : StdoutS
deriving DecidableEq, Repr

/-- Result of `PyDBML(Path(dbml_path))`: the rendered DDL (`dbml.sql`) and the
project note text (`dbml.project.note.text`), absent when the schema source
lacks the annotation structure (so that the attribute access raises). -/
structure Dbml where
  sql : String
  projectNote : Option String

/-- `get_dbml_version` from `build.py`: parse the DBML file and return
`dbml.project.note.text`, propagating a parse failure or a failed attribute
access.  The parse outcome for the given path is the `Except Err Dbml`
argument. -/
def get_dbml_version (parsed : Except Err Dbml) : Except Err String :=
  match parsed with
  | .error e => .error e
  | .ok d =>
    match d.projectNote with
    | none => .error .attributeError
    | some t => .ok t

/-- Oracle outcomes of every external call `generate_models` performs, in
program order.  `parse1` is the `PyDBML(Path(dbml_path))` call at the top of
`generate_models`; `parse2` is the second parse of the same path performed by
the nested `get_dbml_version(dbml_path)` call.  `cmPydantic ddl` and
`cmSqlalchemy ddl` are the `'code'` entries of the two
`create_models(ddl, models_type=..., dump=False, exit_silent=True)` results.

Modelled from the spec: `dbml_builder.fix` (`patch_ddl`, `patch_schema`,
`patch_orm`) is a repository module not present under `src/`; per the spec
they are opaque single-string-in, single-string-out transforms, so they appear
here as oracles which, being arbitrary Python code, may also raise.

`schemaWriteOk`, `ormWriteOk`, `infoWriteOk` say whether each `open(..., 'w')`
for writing succeeds; a failed write raises and leaves the file as it was. -/
structure Env where
  parse1 : Except Err Dbml
  patchDdl : String → Except Err String
  cmPydantic : String → Except Err String
  patchSchema : String → Except Err String
  cmSqlalchemy : String → Except Err String
  patchOrm : String → Except Err String
  schemaWriteOk : Bool
  ormWriteOk : Bool
  parse2 : Except Err Dbml
  infoWriteOk : Bool

/-- `generate_models(dbml_path, generated_dir)` from `build.py`, line by line:
`makedirs(generated_dir, exist_ok=True)`; parse the DBML; `patch_ddl` the
rendered sql; save `sys.stdout` and rebind it to the null device; run the
pydantic `create_models` and `patch_schema`; run the sqlalchemy
`create_models` and `patch_orm`; rebind `sys.stdout` to the saved stream
(only on this straight-line path — there is no `try`/`finally`); write
`schema.py`, then `orm.py`; build the info dict from `get_dbml_version` and
the sha1 digests of the two encoded contents; write `info.json`.  An error at
any point propagates with the state as it stands at that point. -/
def generate_models (sha1hex : List Nat → String) (env : Env)
    (st : PState) : Except Err Unit × PState :=
  let st : PState := { st with fs := { st.fs with dirExists := true } }
  match env.parse1 with
  | .error e => (.error e, st)
  | .ok dbml =>
    match env.patchDdl dbml.sql with
    | .error e => (.error e, st)
    | .ok ddl =>
      let visible := st.stdout
      let st : PState := { st with stdout := .nullDevice }
      match env.cmPydantic ddl with
      | .error e => (.error e, st)
      | .ok schemasCode =>
        match env.patchSchema schemasCode with
        | .error e => (.error e, st)
        | .ok schemaContent =>
          match env.cmSqlalchemy ddl with
          | .error e => (.error e, st)
          | .ok ormCode =>
            match env.patchOrm ormCode with
            | .error e => (.error e, st)
            | .ok ormContent =>
              let st : PState := { st with stdout := visible }
              if env.schemaWriteOk then
                let st : PState :=
                  { st with fs :=
                    { st.fs with schema := some (pyEncode schemaContent) } }
                if env.ormWriteOk then
                  let st : PState :=
                    { st with fs :=
                      { st.fs with orm := some (pyEncode ormContent) } }
                  match get_dbml_version env.parse2 with
                  | .error e => (.error e, st)
                  | .ok ver =>
                    if env.infoWriteOk then
                      let st : PState :=
                        { st with fs :=
                          { st.fs with info := some (.obj
                            [("version", ver),
                             ("schema_hash", sha1hex (pyEncode schemaContent)),
                             ("orm_hash", sha1hex (pyEncode ormContent))]) } }
                      (.ok (), st)
                    else (.error .ioError, st)
                else (.error .ioError, st)
              else (.error .ioError, st)

/-- "Exactly one byte changed": same length, and exactly one position where
the byte lists disagree. -/
def oneByteDiff (b1 b2 : List Nat) : Prop :=
  b1.length = b2.length ∧
    (List.zipWith (fun x y => decide (x ≠ y)) b1 b2).count true = 1

instance (b1 b2 : List Nat) : Decidable (oneByteDiff b1 b2) := by
  unfold oneByteDiff
  infer_instance

/-- The metadata object written on a successful generation run. -/
theorem lookup_gen_version (a b c : String) :
    (([("version", a), ("schema_hash", b), ("orm_hash", c)] :
      List (String × String)).lookup "version") = some a := rfl

theorem lookup_gen_schema_hash (a b c : String) :
    (([("version", a), ("schema_hash", b), ("orm_hash", c)] :
      List (String × String)).lookup "schema_hash") = some b := rfl

theorem lookup_gen_orm_hash (a b c : String) :
    (([("version", a), ("schema_hash", b), ("orm_hash", c)] :
      List (String × String)).lookup "orm_hash") = some c := rfl

/-- C2: with all three files present and the metadata a JSON object carrying
all three keys, `verify` returns true iff the recorded version equals the
supplied one and each recorded hash equals the fresh digest of the
corresponding file's bytes. -/
theorem verify_true_iff (sha1hex : List Nat → String) (v : String) (fs : FS)
    (fields : List (String × String)) (sb ob : List Nat)
    (vRec shRec ohRec : String)
    (hinfo : fs.info = some (.obj fields))
    (hschema : fs.schema = some sb) (horm : fs.orm = some ob)
    (hv : fields.lookup "version" = some vRec)
    (hsh : fields.lookup "schema_hash" = some shRec)
    (hoh : fields.lookup "orm_hash" = some ohRec) :
    (verifyRun sha1hex v fs).1 = .ok true ↔
      (vRec = v ∧ shRec = sha1hex sb ∧ ohRec = sha1hex ob) := by
  simp only [verifyRun, fsExistsInfo, fsExistsSchema, fsReadOrm, fsReadSchema,
    fsReadInfo, hinfo, hschema, horm, jsonLoad, pyCheck, hv, hsh, hoh,
    Option.isSome_some, Bool.and_self, if_true]
  by_cases h1 : vRec = v
  · subst h1
    by_cases h2 : shRec = sha1hex sb
    · subst h2
      simp
    · simp [h2]
  · simp [h1]

/-- C2 witness: a concrete artifact set on which the characterization holds. -/
theorem verify_true_iff_witness :
    ((verifyRun demoHash "1.0.0"
        ⟨true, some (.obj [("version", "1.0.0"),
                           ("schema_hash", demoHash [1, 2]),
                           ("orm_hash", demoHash [3])]),
         some [1, 2], some [3]⟩).1 = .ok true ↔
      ("1.0.0" = "1.0.0" ∧ demoHash [1, 2] = demoHash [1, 2] ∧
        demoHash [3] = demoHash [3])) :=
  verify_true_iff demoHash "1.0.0" _ _ [1, 2] [3] _ _ _ rfl rfl rfl rfl rfl rfl

/-- C4: when the metadata and schema files exist but `orm.py` does not,
`verify` does not return false: the existence check does not cover `orm.py`,
so opening it raises `FileNotFoundError`. -/
theorem verify_missing_orm_raises (sha1hex : List Nat → String) (v : String)
    (fs : FS) (hinfo : fs.info.isSome = true)
    (hschema : fs.schema.isSome = true) (horm : fs.orm = none) :
    (verifyRun sha1hex v fs).1 = .error .fileNotFound := by
  simp only [verifyRun, fsExistsInfo, fsExistsSchema, fsReadOrm, hinfo,
    hschema, horm, Bool.and_self, if_true]

/-- C4 witness: concrete directory with `info.json` and `schema.py` but no
`orm.py`. -/
theorem verify_missing_orm_raises_witness :
    (verifyRun demoHash "1.0.0"
      ⟨true, some (.obj []), some [0], none⟩).1 = .error .fileNotFound :=
  verify_missing_orm_raises demoHash "1.0.0" _ rfl rfl rfl

/-- C5: when the metadata file or the schema file is missing (in particular in
a never-generated, empty directory), `verify` returns false without raising,
and the filesystem is untouched. -/
theorem verify_never_generated_false (sha1hex : List Nat → String)
    (v : String) (fs : FS) (h : fs.info = none ∨ fs.schema = none) :
    verifyRun sha1hex v fs = (.ok false, fs) := by
  rcases h with h | h <;>
    simp [verifyRun, fsExistsInfo, fsExistsSchema, h]

/-- C5 witness: the empty directory. -/
theorem verify_never_generated_false_witness :
    verifyRun demoHash "1.0.0" ⟨false, none, none, none⟩ =
      (.ok false, ⟨false, none, none, none⟩) :=
  verify_never_generated_false demoHash "1.0.0" _ (Or.inl rfl)

/-- C1: a successful generation run leaves an artifact set on which `verify`,
supplied with the version `get_dbml_version` reads from the same unchanged
schema source (the run's own second parse of it), returns true. -/
theorem generate_then_verify (sha1hex : List Nat → String) (env : Env)
    (st st2 : PState) (v : String)
    (hgen : generate_models sha1hex env st = (.ok (), st2))
    (hv : get_dbml_version env.parse2 = .ok v) :
    (verifyRun sha1hex v st2.fs).1 = .ok true := by
  simp only [generate_models] at hgen
  repeat' split at hgen
  all_goals simp only [Prod.mk.injEq, reduceCtorEq, false_and] at hgen
  rename_i ver hver _
  rw [hv] at hver
  cases hver
  obtain ⟨-, rfl⟩ := hgen
  simp only [verifyRun, fsExistsInfo, fsExistsSchema, fsReadOrm,
    fsReadSchema, fsReadInfo, jsonLoad, pyCheck, lookup_gen_version,
    lookup_gen_schema_hash, lookup_gen_orm_hash, Option.isSome_some,
    Bool.and_self, if_true, if_pos rfl, decide_eq_true_eq, decide_True]

/-- A fully successful oracle assignment: parsing yields version `1.0.0`,
the patch functions are the identity, the two code generators return `s1`
and `o1`, and every write succeeds. -/
def envOk : Env where
  parse1 := .ok ⟨"CREATE TABLE t;", some "1.0.0"⟩
  patchDdl := fun s => .ok s
  cmPydantic := fun _ => .ok "s1"
  patchSchema := fun s => .ok s
  cmSqlalchemy := fun _ => .ok "o1"
  patchOrm := fun s => .ok s
  schemaWriteOk := true
  ormWriteOk := true
  parse2 := .ok ⟨"CREATE TABLE t;", some "1.0.0"⟩
  infoWriteOk := true

/-- The never-generated initial process state: empty directory, stdout on the
original stream. -/
def st0 : PState := ⟨⟨false, none, none, none⟩, .visible⟩

/-- C1 witness: the concrete successful run, then `verify` with the version
its schema source carries. -/
theorem generate_then_verify_witness :
    (verifyRun demoHash "1.0.0"
      ((generate_models demoHash envOk st0).2.fs)).1 = .ok true :=
  generate_then_verify demoHash envOk st0 _ "1.0.0" rfl rfl

/-- C8: after a successful generation run, changing exactly one byte of
`schema.py` or of `orm.py` — with the other files, the supplied version, and
the digest values of the untouched content unchanged, and the digest telling
the old and new bytes apart (SHA-1 collision-freedom on the modified file) —
makes `verify` return false. -/
theorem verify_detects_byte_change (sha1hex : List Nat → String) (env : Env)
    (st st2 : PState) (v : String) (fs2 : FS)
    (hgen : generate_models sha1hex env st = (.ok (), st2))
    (hv : get_dbml_version env.parse2 = .ok v)
    (hmod :
      (∃ sb sb2, st2.fs.schema = some sb ∧ oneByteDiff sb sb2 ∧
        sha1hex sb2 ≠ sha1hex sb ∧ fs2 = { st2.fs with schema := some sb2 }) ∨
      (∃ ob ob2, st2.fs.orm = some ob ∧ oneByteDiff ob ob2 ∧
        sha1hex ob2 ≠ sha1hex ob ∧ fs2 = { st2.fs with orm := some ob2 })) :
    (verifyRun sha1hex v fs2).1 = .ok false := by
  simp only [generate_models] at hgen
  repeat' split at hgen
  all_goals simp only [Prod.mk.injEq, reduceCtorEq, false_and] at hgen
  rename_i ver hver _
  rw [hv] at hver
  cases hver
  obtain ⟨-, rfl⟩ := hgen
  rcases hmod with ⟨sb, sb2, hsb, -, hne, rfl⟩ | ⟨ob, ob2, hob, -, hne, rfl⟩
  · simp only [Option.some.injEq] at hsb
    subst hsb
    simp only [verifyRun, fsExistsInfo, fsExistsSchema, fsReadOrm,
      fsReadSchema, fsReadInfo, jsonLoad, pyCheck, lookup_gen_version,
      lookup_gen_schema_hash, lookup_gen_orm_hash, Option.isSome_some,
      Bool.and_self, if_true, if_pos rfl]
    rw [if_neg (fun h => hne h.symm)]
  · simp only [Option.some.injEq] at hob
    subst hob
    simp only [verifyRun, fsExistsInfo, fsExistsSchema, fsReadOrm,
      fsReadSchema, fsReadInfo, jsonLoad, pyCheck, lookup_gen_version,
      lookup_gen_schema_hash, lookup_gen_orm_hash, Option.isSome_some,
      Bool.and_self, if_true, if_pos rfl]
    simp [decide_eq_false (fun h => hne (Eq.symm h))]

/-- C9: `verify` performs only reads: for every version and directory state it
returns the filesystem exactly as it found it, whether it returns true,
returns false, or raises. -/
theorem verify_preserves_fs (sha1hex : List Nat → String) (v : String)
    (fs : FS) : (verifyRun sha1hex v fs).2 = fs := by
  simp only [verifyRun, fsExistsInfo, fsExistsSchema, fsReadOrm, fsReadSchema,
    fsReadInfo]
  rcases fs with ⟨d, i, s, o⟩
  rcases i with _ | i <;> rcases s with _ | s <;> rcases o with _ | o <;>
    simp <;> rcases jsonLoad i <;> simp

/-- C8 witness: the concrete successful run, then one byte of `schema.py`
changed (the generated bytes are `pyEncode "s1" = [115, 49]`). -/
theorem verify_detects_byte_change_witness :
    (verifyRun demoHash "1.0.0"
      { (generate_models demoHash envOk st0).2.fs with
        schema := some [115, 50] }).1 = .ok false :=
  verify_detects_byte_change demoHash envOk st0
    (generate_models demoHash envOk st0).2 "1.0.0"
    { (generate_models demoHash envOk st0).2.fs with schema := some [115, 50] }
    (by decide) (by decide)
    (Or.inl ⟨[115, 49], [115, 50], by decide, by decide, by decide, by decide⟩)

/-- The executions of `generate_models` in which schema parsing, the DDL
patch, or one of the two external code-generation invocations raises. -/
def failsBeforeWrites (env : Env) : Prop :=
  (∃ e, env.parse1 = .error e) ∨
  (∃ d e, env.parse1 = .ok d ∧ env.patchDdl d.sql = .error e) ∨
  (∃ d ddl e, env.parse1 = .ok d ∧ env.patchDdl d.sql = .ok ddl ∧
    env.cmPydantic ddl = .error e) ∨
  (∃ d ddl e, env.parse1 = .ok d ∧ env.patchDdl d.sql = .ok ddl ∧
    env.cmSqlalchemy ddl = .error e)

/-- C10: when parsing, the DDL patch, or either code-generation call raises,
`generate_models` propagates an error and the only filesystem effect is the
`makedirs` creation of the output directory: `schema.py`, `orm.py` and
`info.json` are exactly as before the call. -/
theorem generate_early_failure_writes_nothing (sha1hex : List Nat → String)
    (env : Env) (st : PState) (h : failsBeforeWrites env) :
    ∃ e st2, generate_models sha1hex env st = (.error e, st2) ∧
      st2.fs = { st.fs with dirExists := true } := by
  rcases h with ⟨e, h1⟩ | ⟨d, e, h1, h2⟩ | ⟨d, ddl, e, h1, h2, h3⟩ |
    ⟨d, ddl, e, h1, h2, h3⟩
  · exact ⟨e, ⟨{ st.fs with dirExists := true }, st.stdout⟩,
      by simp only [generate_models, h1], rfl⟩
  · exact ⟨e, ⟨{ st.fs with dirExists := true }, st.stdout⟩,
      by simp only [generate_models, h1, h2], rfl⟩
  · exact ⟨e, ⟨{ st.fs with dirExists := true }, .nullDevice⟩,
      by simp only [generate_models, h1, h2, h3], rfl⟩
  · rcases h4 : env.cmPydantic ddl with e4 | sc
    · exact ⟨e4, ⟨{ st.fs with dirExists := true }, .nullDevice⟩,
        by simp only [generate_models, h1, h2, h4], rfl⟩
    · rcases h5 : env.patchSchema sc with e5 | sc2
      · exact ⟨e5, ⟨{ st.fs with dirExists := true }, .nullDevice⟩,
          by simp only [generate_models, h1, h2, h4, h5], rfl⟩
      · exact ⟨e, ⟨{ st.fs with dirExists := true }, .nullDevice⟩,
          by simp only [generate_models, h1, h2, h4, h5, h3], rfl⟩

/-- A run whose very first step, the PyDBML parse, fails. -/
def envParseFail : Env := { envOk with parse1 := .error .parseError }

/-- C10 witness: the concrete parse-failure run against the empty
directory. -/
theorem generate_early_failure_writes_nothing_witness :
    ∃ e st2, generate_models demoHash envParseFail st0 = (.error e, st2) ∧
      st2.fs = { st0.fs with dirExists := true } :=
  generate_early_failure_writes_nothing demoHash envParseFail st0
    (Or.inl ⟨.parseError, rfl⟩)

/-- A run in which the first (pydantic) `create_models` call raises. -/
def envCmFail : Env := { envOk with cmPydantic := fun _ => .error .genError }

/-- C3 exhibit: `generate_models` has no `try`/`finally` around the stdout
redirection, so a run entered with the original stream on `sys.stdout` that
fails inside a code-generation call propagates the error with `sys.stdout`
still bound to the null device. -/
theorem generate_codegen_error_leaves_stdout_redirected :
    st0.stdout = .visible ∧
    generate_models demoHash envCmFail st0 =
      (.error .genError, ⟨⟨true, none, none, none⟩, .nullDevice⟩) :=
  ⟨rfl, by decide⟩

/-- A run in which the second (sqlalchemy) `create_models` call raises. -/
def envOrmGenFail : Env :=
  { envOk with cmSqlalchemy := fun _ => .error .genError }

/-- C7 counterexample: in the run where the ORM code-generation step fails,
the schema file is not on disk — both file writes come after both
code-generation calls, so the spec's example scenario (schema file written,
then ORM generation fails) does not occur. -/
theorem orm_codegen_failure_schema_not_written :
    (generate_models demoHash envOrmGenFail st0).1 = .error .genError ∧
    (generate_models demoHash envOrmGenFail st0).2.fs.schema = none :=
  ⟨by decide, by decide⟩

/-- A run in which both code generations succeed, the `schema.py` write
succeeds, and the `orm.py` write then fails. -/
def envOrmWriteFail : Env := { envOk with ormWriteOk := false }

/-- C7 amended: a failing execution that does leave a partial artifact set
without rollback — the `orm.py` write fails after `schema.py` has been
written, leaving the new schema file on disk while `orm.py` and `info.json`
are not updated. -/
theorem orm_write_failure_leaves_partial_artifacts :
    (generate_models demoHash envOrmWriteFail st0).1 = .error .ioError ∧
    (generate_models demoHash envOrmWriteFail st0).2.fs.schema =
      some (pyEncode "s1") ∧
    (generate_models demoHash envOrmWriteFail st0).2.fs.orm = none ∧
    (generate_models demoHash envOrmWriteFail st0).2.fs.info = none :=
  ⟨by decide, by decide, by decide, by decide⟩

/-- C6 counterexample: existence checks pass, the metadata parses as a JSON
object lacking both hash keys, yet `verify` returns false instead of raising:
the recorded version differs from the supplied one, so Python's short-circuit
`and` never reaches the missing keys. -/
theorem verify_missing_hash_keys_returns_false :
    (verifyRun demoHash "2.0.0"
      ⟨true, some (.obj [("version", "1.0.0")]), some [0], some [0]⟩).1 =
      .ok false := by decide

/-- C6 amended: with both existence checks passing, unparseable metadata
always raises, as does a missing `version` key; a missing `schema_hash` or
`orm_hash` key raises a `KeyError` exactly when Python's left-to-right
short-circuit `and` reaches that key — `schema_hash` when the recorded
version equals the supplied one, `orm_hash` when additionally the recorded
schema hash equals the fresh schema digest — while if an earlier comparison
already failed, `verify` returns false instead. -/
theorem verify_metadata_error_cases (sha1hex : List Nat → String) (v : String)
    (fs : FS) (sb : List Nat) (hschema : fs.schema = some sb) :
    (fs.info = some .malformed → ∃ e, (verifyRun sha1hex v fs).1 = .error e) ∧
    (∀ fields, fs.info = some (.obj fields) →
      fields.lookup "version" = none →
      ∃ e, (verifyRun sha1hex v fs).1 = .error e) ∧
    (∀ fields ob, fs.info = some (.obj fields) → fs.orm = some ob →
      ((fields.lookup "version" = some v →
          fields.lookup "schema_hash" = none →
          (verifyRun sha1hex v fs).1 = .error .keyError) ∧
       (fields.lookup "version" = some v →
          fields.lookup "schema_hash" = some (sha1hex sb) →
          fields.lookup "orm_hash" = none →
          (verifyRun sha1hex v fs).1 = .error .keyError) ∧
       (∀ v0, fields.lookup "version" = some v0 → v0 ≠ v →
          (verifyRun sha1hex v fs).1 = .ok false) ∧
       (∀ sh, fields.lookup "version" = some v →
          fields.lookup "schema_hash" = some sh → sh ≠ sha1hex sb →
          (verifyRun sha1hex v fs).1 = .ok false))) := by
  refine ⟨?_, ?_, ?_⟩
  · intro hmal
    rcases horm : fs.orm with _ | ob
    · exact ⟨.fileNotFound, by
        simp only [verifyRun, fsExistsInfo, fsExistsSchema, fsReadOrm, hmal,
          hschema, horm, Option.isSome_some, Bool.and_self, if_true]⟩
    · exact ⟨.jsonDecodeError, by
        simp only [verifyRun, fsExistsInfo, fsExistsSchema, fsReadOrm,
          fsReadSchema, fsReadInfo, jsonLoad, hmal, hschema, horm,
          Option.isSome_some, Bool.and_self, if_true]⟩
  · intro fields hinfo hvnone
    rcases horm : fs.orm with _ | ob
    · exact ⟨.fileNotFound, by
        simp only [verifyRun, fsExistsInfo, fsExistsSchema, fsReadOrm, hinfo,
          hschema, horm, Option.isSome_some, Bool.and_self, if_true]⟩
    · exact ⟨.keyError, by
        simp only [verifyRun, fsExistsInfo, fsExistsSchema, fsReadOrm,
          fsReadSchema, fsReadInfo, jsonLoad, pyCheck, hinfo, hschema, horm,
          hvnone, Option.isSome_some, Bool.and_self, if_true]⟩
  · intro fields ob hinfo horm
    refine ⟨?_, ?_, ?_, ?_⟩
    · intro hv1 hshnone
      simp only [verifyRun, fsExistsInfo, fsExistsSchema, fsReadOrm,
        fsReadSchema, fsReadInfo, jsonLoad, pyCheck, hinfo, hschema, horm,
        hv1, hshnone, Option.isSome_some, Bool.and_self, if_true, if_pos rfl]
    · intro hv1 hsh1 hohnone
      simp only [verifyRun, fsExistsInfo, fsExistsSchema, fsReadOrm,
        fsReadSchema, fsReadInfo, jsonLoad, pyCheck, hinfo, hschema, horm,
        hv1, hsh1, hohnone, Option.isSome_some, Bool.and_self, if_true,
        if_pos rfl]
    · intro v0 hv0 hne
      simp only [verifyRun, fsExistsInfo, fsExistsSchema, fsReadOrm,
        fsReadSchema, fsReadInfo, jsonLoad, pyCheck, hinfo, hschema, horm,
        hv0, Option.isSome_some, Bool.and_self, if_true, if_neg hne]
    · intro sh hv1 hsh1 hne
      simp only [verifyRun, fsExistsInfo, fsExistsSchema, fsReadOrm,
        fsReadSchema, fsReadInfo, jsonLoad, pyCheck, hinfo, hschema, horm,
        hv1, hsh1, Option.isSome_some, Bool.and_self, if_true, if_pos rfl,
        if_neg hne]

/-- C6 amended witness: a metadata object lacking `schema_hash` with a
matching recorded version does raise `KeyError`. -/
theorem verify_metadata_error_cases_witness :
    (verifyRun demoHash "1.0.0"
      ⟨true, some (.obj [("version", "1.0.0")]), some [7], some [8]⟩).1 =
      .error .keyError :=
  ((verify_metadata_error_cases demoHash "1.0.0"
      ⟨true, some (.obj [("version", "1.0.0")]), some [7], some [8]⟩
      [7] rfl).2.2 [("version", "1.0.0")] [8] rfl rfl).1 rfl rfl
